import Mathlib

/-!
# AIHoloImager: the embedded Python host (`PythonSystem.cpp`)

A shallow embedding of `Source/Lib/Source/Python/PythonSystem.cpp`.

* The guest runtime (CPython) is not part of the repository.
  - For the constructor and destructor of the host, the calls into it are
    recorded in program order as `GuestCall` events, and the statuses it
    returns are arbitrary functions of the arguments (`InitGuest`).
  - For the façade, the guest state (`Guest`: objects with their reference
    counts, and the per-thread error indicator) is passed explicitly.  Calls
    whose result depends on the loaded modules are arbitrary functions
    (`GuestEnv`); the marshalling calls (`PyLong_*`, `PyUnicode_*`,
    `PyBytes_*`, `PyTuple_*`) follow a reference model of the C API.
* The `std::filesystem::path` operations and the two build-time directory
  macros are parameters of the model.
* `PyObjectPtr` is declared in `PythonSystem.hpp`, which is not among the
  sources; it is modelled from the specification.
* Output written to `std::cout` / `std::cerr` is not modelled.
-/

namespace AIHoloImager

/-! ## Interpreter host: configuration and initialisation -/

/-- The operations of `std::filesystem::path` used by the constructor.  A path
and a wide string are both represented by the text they hold. -/
structure PathOps where
  /-- Models `path::lexically_normal()`. -/
  lexically_normal : String → String
  /-- Models `operator/` of a path with a string literal. -/
  slash : String → String → String
  /-- Models `path::wstring()`. -/
  wstring : String → String

/-- The two directory macros defined by the build system. -/
structure BuildDirs where
  AIHI_PY_STDLIB_DIR : String
  AIHI_PY_RUNTIME_LIB_DIR : String

/-- Kind of a guest `PyStatus`. -/
inductive PyStatusType where
  | OK
  | ERROR
  | EXIT
  deriving DecidableEq, Repr

/-- Guest status value returned by the configuration calls. -/
structure PyStatus where
  type : PyStatusType
  exitcode : Int
  deriving DecidableEq, Repr

/-- Models `PyStatus_Exception`: true for an error status and for an exit status. -/
def PyStatus_Exception (status : PyStatus) : Bool :=
  status.type != PyStatusType.OK

/-- The fields of `PyPreConfig` the constructor depends on. -/
structure PyPreConfig where
  isolated : Int
  use_environment : Int
  utf8_mode : Int
  deriving DecidableEq, Repr

/-- Models `PyPreConfig_InitIsolatedConfig`. -/
def PyPreConfig_InitIsolatedConfig : PyPreConfig :=
  { isolated := 1, use_environment := 0, utf8_mode := 0 }

/-- The fields of `PyConfig` the constructor depends on. -/
structure PyConfig where
  isolated : Int
  program_name : Option String
  module_search_paths_set : Int
  module_search_paths : List String
  deriving DecidableEq, Repr

/-- Models `PyConfig_InitIsolatedConfig`. -/
def PyConfig_InitIsolatedConfig : PyConfig :=
  { isolated := 1, program_name := none, module_search_paths_set := 0,
    module_search_paths := [] }

/-- Statuses the guest returns for the status-returning calls of the
constructor, as functions of the arguments of the call. -/
structure InitGuest where
  Py_PreInitialize : PyPreConfig → PyStatus
  PyConfig_SetString : String → PyStatus
  /-- Arguments: the list appended to, and the item. -/
  PyWideStringList_Append : List String → String → PyStatus
  Py_InitializeFromConfig : PyConfig → PyStatus

/-- Calls into the guest runtime made by the host, in program order. -/
inductive GuestCall where
  | PyPreConfig_InitIsolatedConfig
  | Py_PreInitialize (pre_config : PyPreConfig)
  | Py_ExitStatusException (status : PyStatus)
  | PyConfig_InitIsolatedConfig
  | PyConfig_SetString (value : String)
  | PyWideStringList_Append (item : String)
  | Py_InitializeFromConfig (config : PyConfig)
  | PyConfig_Clear
  | PySys_GetObject (name : String)
  | PyObject_Print
  | Py_Finalize
  deriving DecidableEq, Repr

/-- The item appended by a `PyWideStringList_Append` call; nothing for another call. -/
def GuestCall.appended? : GuestCall → Option String
  | .PyWideStringList_Append item => some item
  | _ => none

/-- How a run of the constructor ends: `Py_ExitStatusException` does not
return (it terminates the process), otherwise the object is constructed. -/
inductive Outcome where
  | constructed
  | terminated (status : PyStatus)
  deriving DecidableEq, Repr

/-- Result of running a piece of the constructor: the guest calls made, and
either the value to continue with or the status the process exited with. -/
structure Step (α : Type) where
  trace : List GuestCall
  next : Except PyStatus α

/-- Models `std::wstring::c_str()` as a guest call reads it: a pointer to
zero-terminated wide characters, that is, the characters before the first zero
character of the string. -/
def c_str (s : String) : String :=
  String.mk (s.toList.takeWhile (fun ch => ch != Char.ofNat 0))

namespace Impl

/-- The vector `paths` built at the start of the constructor. -/
def paths (ops : PathOps) (dirs : BuildDirs) (exe_dir : String) : List String :=
  let stdlib_dir := dirs.AIHI_PY_STDLIB_DIR
  [ ops.wstring (ops.lexically_normal dirs.AIHI_PY_STDLIB_DIR),
    ops.wstring (ops.lexically_normal (ops.slash stdlib_dir "config-3.10-x86_64-linux-gnu")),
    ops.wstring (ops.lexically_normal dirs.AIHI_PY_RUNTIME_LIB_DIR),
    ops.wstring (ops.lexically_normal exe_dir),
    ops.wstring (ops.lexically_normal (ops.slash exe_dir "Python/Lib/site-packages")),
    ops.wstring (ops.lexically_normal (ops.slash exe_dir "InstantMesh")) ]

/-- The loop `for (const auto& path : paths)`: append `path.c_str()` to
`config.module_search_paths` (the guest stores a copy of the zero-terminated
string it is given); on a failing status clear the configuration and exit. -/
def appendPaths (guest : InitGuest) : List String → PyConfig → Step PyConfig
  | [], config => { trace := [], next := .ok config }
  | path :: rest, config =>
    let item := c_str path
    let status := guest.PyWideStringList_Append config.module_search_paths item
    if PyStatus_Exception status then
      { trace := [.PyWideStringList_Append item, .PyConfig_Clear,
                  .Py_ExitStatusException status],
        next := .error status }
    else
      let config1 := { config with module_search_paths := config.module_search_paths ++ [item] }
      let r := appendPaths guest rest config1
      { trace := .PyWideStringList_Append item :: r.trace, next := r.next }

/-- The constructor `Impl::Impl(exe_dir)`. -/
def ctor (ops : PathOps) (dirs : BuildDirs) (guest : InitGuest) (exe_dir : String) :
    List GuestCall × Outcome :=
  let paths := paths ops dirs exe_dir
  let pre_config := PyPreConfig_InitIsolatedConfig
  let pre_config := { pre_config with utf8_mode := 1 }
  let status := guest.Py_PreInitialize pre_config
  let t0 := [GuestCall.PyPreConfig_InitIsolatedConfig, .Py_PreInitialize pre_config]
  if PyStatus_Exception status then
    (t0 ++ [.Py_ExitStatusException status], .terminated status)
  else
    let config := PyConfig_InitIsolatedConfig
    let status := guest.PyConfig_SetString "AIHoloImager"
    let t1 := t0 ++ [.PyConfig_InitIsolatedConfig, .PyConfig_SetString "AIHoloImager"]
    if PyStatus_Exception status then
      (t1 ++ [.PyConfig_Clear, .Py_ExitStatusException status], .terminated status)
    else
      let config := { config with program_name := some "AIHoloImager" }
      let config := { config with module_search_paths_set := 1 }
      let loop := appendPaths guest paths config
      match loop.next with
      | .error status => (t1 ++ loop.trace, .terminated status)
      | .ok config =>
        let status := guest.Py_InitializeFromConfig config
        let t2 := t1 ++ loop.trace ++ [.Py_InitializeFromConfig config]
        if PyStatus_Exception status then
          (t2 ++ [.PyConfig_Clear, .Py_ExitStatusException status], .terminated status)
        else
          (t2 ++ [.PyConfig_Clear, .PySys_GetObject "path", .PyObject_Print], .constructed)

/-- The strings `path.c_str()` the loop hands to the guest, in order. -/
def items (ops : PathOps) (dirs : BuildDirs) (exe_dir : String) : List String :=
  (paths ops dirs exe_dir).map c_str

/-- The destructor `Impl::~Impl()`. -/
def dtor : List GuestCall := [.Py_Finalize]

end Impl

/-! ## Reference model of the guest object API

The functions below follow the behaviour of the CPython 3.10 C API on a
64-bit Linux host (`long` and `Py_ssize_t` are 64 bits wide, `wchar_t` is 32
bits wide).  Memory exhaustion is outside the model: an allocation succeeds. -/

/-- Address of a guest object.  A nullable `PyObject*` is an `Option PyObject`
(`none` is the null pointer); a `PyObject&` is a `PyObject`. -/
abbrev PyObject := Nat

/-- Host wide character (`wchar_t`), as the unsigned value of its 32 bits. -/
abbrev wchar_t := Nat

/-- Host byte (`std::byte`). -/
abbrev byte := Fin 256

def LONG_MIN : Int := -(2 ^ 63)

def LONG_MAX : Int := 2 ^ 63 - 1

def SIZE_MAX : Nat := 2 ^ 64 - 1

/-- Largest value of a `Py_ssize_t`; the length of a host view is below it. -/
def PY_SSIZE_T_MAX : Nat := 2 ^ 63 - 1

/-- Largest code point of a guest string (hexadecimal 10FFFF). -/
def MAX_UNICODE : Nat := 1114111

/-- Conversion of a `Py_ssize_t` to `size_t`. -/
def to_size_t (n : Int) : Nat := (n % 2 ^ 64).toNat

/-- Content of a guest object, for the kinds of object the host marshals. -/
inductive PyValue where
  | long (v : Int)
  | unicode (str : List Nat)
  | bytes (ob_sval : List byte)
  | tuple (ob_item : List (Option PyObject))
  | other
  deriving DecidableEq, Repr

/-- A guest object: its reference count and its content. -/
structure PyObjectRec where
  ob_refcnt : Int
  value : PyValue
  deriving DecidableEq, Repr

/-- Kinds of guest exception the modelled calls raise. -/
inductive PyExc where
  | TypeError
  | ValueError
  | OverflowError
  | SystemError
  | IndexError
  | Other (name : String)
  deriving DecidableEq, Repr

/-- State of the guest runtime: the objects (an address is an index) and the
per-thread error indicator. -/
structure Guest where
  heap : List PyObjectRec
  err : Option PyExc
  deriving DecidableEq, Repr

namespace Guest

/-- Content of the object at an address. -/
def value? (g : Guest) (o : PyObject) : Option PyValue :=
  (g.heap[o]?).map PyObjectRec.value

/-- A new object with one reference, owned by the caller. -/
def alloc (g : Guest) (v : PyValue) : PyObject × Guest :=
  (g.heap.length, { g with heap := g.heap ++ [{ ob_refcnt := 1, value := v }] })

/-- Set the error indicator. -/
def raise (g : Guest) (e : PyExc) : Guest :=
  { g with err := some e }

/-- Add `d` to the reference count of the object at an address. -/
def addRef (g : Guest) (o : PyObject) (d : Int) : Guest :=
  match g.heap[o]? with
  | some r => { g with heap := g.heap.set o ({ r with ob_refcnt := r.ob_refcnt + d }) }
  | none => g

end Guest

/-- Models `Py_DecRef` (`Py_XDECREF`): nothing on a null pointer, otherwise
one decrement. -/
def Py_DecRef (g : Guest) (o : Option PyObject) : Guest :=
  match o with
  | none => g
  | some p => g.addRef p (-1)

/-- Models `PyLong_FromLong`: a new reference to a guest integer. -/
def PyLong_FromLong (g : Guest) (v : Int) : Option PyObject × Guest :=
  let (p, g1) := g.alloc (.long v)
  (some p, g1)

/-- Models `PyLong_AsLong`: the value of a guest integer that fits a `long`;
otherwise -1 with the error indicator set (an object of another kind is taken
to define no `__index__`). -/
def PyLong_AsLong (g : Guest) (obj : PyObject) : Int × Guest :=
  match g.value? obj with
  | some (.long v) =>
    if LONG_MIN ≤ v ∧ v ≤ LONG_MAX then (v, g) else (-1, g.raise .OverflowError)
  | _ => (-1, g.raise .TypeError)

/-- Models `PyUnicode_FromWideChar(u, size)` for the `size` wide characters
`u`: a character above `MAX_UNICODE` is rejected with `ValueError`. -/
def PyUnicode_FromWideChar (g : Guest) (u : List wchar_t) : Option PyObject × Guest :=
  if u.all (fun ch => decide (ch ≤ MAX_UNICODE)) then
    let (p, g1) := g.alloc (.unicode u)
    (some p, g1)
  else
    (none, g.raise .ValueError)

/-- Models `PyUnicode_AsWideCharString(unicode, &size)`.  `size` is the value
the variable holds before the call.  On a guest string: a new buffer with the
characters and a terminating zero, and the number of characters stored in
`size`.  Otherwise: null, the error indicator set, `size` not written. -/
def PyUnicode_AsWideCharString (g : Guest) (unicode : PyObject) (size : Int) :
    Option (List wchar_t) × Int × Guest :=
  match g.value? unicode with
  | some (.unicode str) => (some (str ++ [0]), (str.length : Int), g)
  | _ => (none, size, g.raise .TypeError)

/-- Models `PyBytes_FromStringAndSize(str, size)` for the `size` bytes `str`. -/
def PyBytes_FromStringAndSize (g : Guest) (str : List byte) : Option PyObject × Guest :=
  let (p, g1) := g.alloc (.bytes str)
  (some p, g1)

/-- Models `PyBytes_Size`: the length, or -1 with `TypeError` on an object
that is not a byte string. -/
def PyBytes_Size (g : Guest) (obj : PyObject) : Int × Guest :=
  match g.value? obj with
  | some (.bytes ob_sval) => ((ob_sval.length : Int), g)
  | _ => (-1, g.raise .TypeError)

/-- Models `PyBytes_AsString`: a pointer to the internal buffer (the bytes and
a terminating zero), or null with `TypeError` on an object that is not a byte
string. -/
def PyBytes_AsString (g : Guest) (obj : PyObject) : Option (List byte) × Guest :=
  match g.value? obj with
  | some (.bytes ob_sval) => (some (ob_sval ++ [0]), g)
  | _ => (none, g.raise .TypeError)

/-- Models `PyTuple_New`: a new tuple of `size` empty slots. -/
def PyTuple_New (g : Guest) (size : Int) : Option PyObject × Guest :=
  if size < 0 then
    (none, g.raise .SystemError)
  else
    let (p, g1) := g.alloc (.tuple (List.replicate size.toNat none))
    (some p, g1)

/-- Models `PyTuple_SetItem(obj, i, newitem)`: the call takes over the caller's
reference to `newitem`.  On a tuple with a single reference and an index in
range the slot is replaced and the previous occupant released; otherwise
`newitem` is released and the error indicator set. -/
def PyTuple_SetItem (g : Guest) (obj : PyObject) (i : Int) (newitem : Option PyObject) :
    Int × Guest :=
  match g.heap[obj]? with
  | some { ob_refcnt := 1, value := .tuple ob_item } =>
    if i < 0 ∨ (ob_item.length : Int) ≤ i then
      (-1, (Py_DecRef g newitem).raise .IndexError)
    else
      let old := (ob_item.getD i.toNat none)
      let slot : PyObjectRec := { ob_refcnt := 1, value := .tuple (ob_item.set i.toNat newitem) }
      let g1 := { g with heap := g.heap.set obj slot }
      (0, Py_DecRef g1 old)
  | _ => (-1, (Py_DecRef g newitem).raise .SystemError)

/-- Guest calls whose result depends on the scripted modules that are loaded:
each is an arbitrary function of the guest state and the arguments. -/
structure GuestEnv where
  PyImport_ImportModule : Guest → String → Option PyObject × Guest
  PyObject_GetAttrString : Guest → PyObject → String → Option PyObject × Guest
  PyObject_CallObject : Guest → PyObject → Option PyObject → Option PyObject × Guest
  PyObject_Print : Guest → PyObject → Guest
  PyErr_Print : Guest → Guest
  PyModule_GetDict : Guest → PyObject → Option PyObject × Guest
  PyDict_Keys : Guest → PyObject → Option PyObject × Guest
  PyList_Size : Guest → PyObject → Int × Guest
  PyList_GetItem : Guest → PyObject → Int → Option PyObject × Guest
  PyUnicode_Check : Guest → PyObject → Bool
  PyUnicode_AsUTF8 : Guest → PyObject → Guest

/-! ## Object handle -/

/-- Modelled from the spec: `PyObjectPtr`, the owning handle declared in
`PythonSystem.hpp` (spec section 4.1).  It holds a raw guest pointer or is
empty. -/
structure PyObjectPtr where
  ptr : Option PyObject
  deriving DecidableEq, Repr

namespace PyObjectPtr

/-- Modelled from the spec: `get()` borrows the raw pointer; null iff empty. -/
def get (h : PyObjectPtr) : Option PyObject := h.ptr

/-- Modelled from the spec: conversion to boolean, true iff non-empty. -/
def toBool (h : PyObjectPtr) : Bool := h.ptr.isSome

/-- Modelled from the spec: `reset()` and the destructor perform one decrement
on the guest object if the handle is non-empty, none otherwise. -/
def destroy (h : PyObjectPtr) (g : Guest) : Guest :=
  match h.ptr with
  | none => g
  | some p => Py_DecRef g (some p)

end PyObjectPtr

/-- The function `MakePyObjectPtr`: adopt a raw pointer. -/
def MakePyObjectPtr (p : Option PyObject) : PyObjectPtr := { ptr := p }

/-! ## Marshalling façade -/

/-- A non-owning view (`std::wstring_view`, `std::span`): the storage its
pointer refers to (`none` for a null pointer) and its length. -/
structure View (α : Type) where
  data : Option (List α)
  size : Nat
  deriving DecidableEq, Repr

/-- The elements of a view, when its pointer and length denote a range inside
the storage. -/
def View.elems {α : Type} (v : View α) : Option (List α) :=
  match v.data with
  | some storage => if v.size ≤ storage.length then some (storage.take v.size) else none
  | none => if v.size = 0 then some [] else none

namespace PythonSystem

def Import (env : GuestEnv) (g : Guest) (name : String) : PyObjectPtr × Guest :=
  let (p, g1) := env.PyImport_ImportModule g name
  (MakePyObjectPtr p, g1)

def GetAttr (env : GuestEnv) (g : Guest) (module : PyObject) (name : String) :
    PyObjectPtr × Guest :=
  let g1 := env.PyObject_Print g module
  let (p, g2) := env.PyObject_GetAttrString g1 module name
  (MakePyObjectPtr p, g2)

/-- The overload `CallObject(PyObject& object)`. -/
def CallObject (env : GuestEnv) (g : Guest) (object : PyObject) : PyObjectPtr × Guest :=
  let (p, g1) := env.PyObject_CallObject g object none
  (MakePyObjectPtr p, g1)

/-- The overload `CallObject(PyObject& object, PyObject& args)`. -/
def CallObjectArgs (env : GuestEnv) (g : Guest) (object args : PyObject) :
    PyObjectPtr × Guest :=
  let (p, g1) := env.PyObject_CallObject g object (some args)
  (MakePyObjectPtr p, g1)

/-- The overload `MakeObject(long value)`. -/
def MakeObjectLong (g : Guest) (value : Int) : PyObjectPtr × Guest :=
  let (p, g1) := PyLong_FromLong g value
  (MakePyObjectPtr p, g1)

/-- The overload `MakeObject(std::wstring_view str)`. -/
def MakeObjectWString (g : Guest) (str : List wchar_t) : PyObjectPtr × Guest :=
  let (p, g1) := PyUnicode_FromWideChar g str
  (MakePyObjectPtr p, g1)

/-- The overload `MakeObject(std::span<const std::byte> mem)`. -/
def MakeObjectBytes (g : Guest) (mem : List byte) : PyObjectPtr × Guest :=
  let (p, g1) := PyBytes_FromStringAndSize g mem
  (MakePyObjectPtr p, g1)

/-- `MakeTuple(uint32_t size)`. -/
def MakeTuple (g : Guest) (size : Nat) : PyObjectPtr × Guest :=
  let (p, g1) := PyTuple_New g (size : Int)
  (MakePyObjectPtr p, g1)

/-- The overload `SetTupleItem(PyObject& tuple, uint32_t index, PyObject& item)`. -/
def SetTupleItemRaw (g : Guest) (tuple : PyObject) (index : Nat) (item : PyObject) : Guest :=
  (PyTuple_SetItem g tuple (index : Int) (some item)).2

/-- The specialisation `Cast<long>`. -/
def CastLong (g : Guest) (object : PyObject) : Int × Guest :=
  PyLong_AsLong g object

/-- The specialisation `Cast<std::wstring_view>`.  The local `size` is declared
without an initialiser; `size0` is the value it holds at that point. -/
def CastWStringView (size0 : Int) (g : Guest) (object : PyObject) : View wchar_t × Guest :=
  let size := size0
  let (str, size, g1) := PyUnicode_AsWideCharString g object size
  ({ data := str, size := to_size_t size }, g1)

/-- The specialisation `Cast<std::span<const std::byte>>`. -/
def CastBytes (g : Guest) (object : PyObject) : View byte × Guest :=
  let (size, g1) := PyBytes_Size g object
  let (data, g2) := PyBytes_AsString g1 object
  ({ data := data, size := to_size_t size }, g2)

end PythonSystem

/-! ## `PythonSystem::Test` -/

/-- Undefined behaviour reached by a run: `operator*` or a guest call applied
to an empty handle.  The name is that of the local variable. -/
inductive Fault where
  | emptyHandle (name : String)
  deriving DecidableEq, Repr

/-- The raw pointer of a handle at a place where the program dereferences it
(`*h`) or hands `h.get()` to a guest call that requires an object. -/
def PyObjectPtr.use (h : PyObjectPtr) (name : String) : Except Fault PyObject :=
  match h.ptr with
  | some p => .ok p
  | none => .error (.emptyHandle name)

namespace PythonSystem

/-- The loop `for (Py_ssize_t i = 0; i < size; i++)` over the key list:
`n` iterations remain, `i` is the current index. -/
def listAttributes (env : GuestEnv) (keys : PyObject) : Nat → Int → Guest → Guest
  | 0, _, g => g
  | n + 1, i, g =>
    let (key, g1) := env.PyList_GetItem g keys i
    let g2 :=
      match key with
      | some k => if env.PyUnicode_Check g1 k then env.PyUnicode_AsUTF8 g1 k else g1
      | none => g1
    listAttributes env keys n (i + 1) g2

/-- The block of `Test` that lists the attributes of the module. -/
def listModule (env : GuestEnv) (g : Guest) (module : PyObject) : Guest :=
  let (module_dict, g1) := env.PyModule_GetDict g module
  match module_dict with
  | none => g1
  | some d =>
    let (keys, g2) := env.PyDict_Keys g1 d
    match keys with
    | none => g2
    | some ks =>
      let (size, g3) := env.PyList_Size g2 ks
      let g4 := listAttributes env ks size.toNat 0 g3
      Py_DecRef g4 (some ks)

/-- The function `PythonSystem::Test`.  The result is the guest state when the
function returns, or the fault at which its behaviour becomes undefined.
Handles still alive at a `return` are destroyed there, in reverse order of
declaration. -/
def Test (env : GuestEnv) (g : Guest) : Except Fault Guest :=
  let (mask_generator_module, g) := Import env g "MaskGenerator"
  if !mask_generator_module.toBool then
    let g := env.PyErr_Print g
    .ok (mask_generator_module.destroy g)
  else do
    let m ← mask_generator_module.use "mask_generator_module"
    let g := listModule env g m
    let m ← mask_generator_module.use "mask_generator_module"
    let (mask_generator_class, g) := GetAttr env g m "MaskGenerator"
    if !mask_generator_class.toBool then
      let g := env.PyErr_Print g
      let m ← mask_generator_module.use "mask_generator_module"
      let (file_attr, g) := env.PyObject_GetAttrString g m "__file__"
      let g :=
        match file_attr with
        | some f => Py_DecRef (env.PyUnicode_AsUTF8 g f) (some f)
        | none => g
      .ok (mask_generator_module.destroy (mask_generator_class.destroy g))
    else
      let c ← mask_generator_class.use "mask_generator_class"
      let (mask_generator, g) := CallObject env g c
      if !mask_generator.toBool then
        let g := env.PyErr_Print g
        .ok (mask_generator_module.destroy (mask_generator_class.destroy
          (mask_generator.destroy g)))
      else
        let i ← mask_generator.use "mask_generator"
        let (mask_generator_gen_method, g) := GetAttr env g i "Gen"
        let g := if !mask_generator_gen_method.toBool then env.PyErr_Print g else g
        let (pil_module, g) := Import env g "PIL"
        let pil ← pil_module.use "pil_module"
        let (image_class, g) := GetAttr env g pil "Image"
        let image ← image_class.use "image_class"
        let (image_frombuffer_method, g) := GetAttr env g image "frombuffer"
        .ok (mask_generator_module.destroy (mask_generator_class.destroy
          (mask_generator.destroy (mask_generator_gen_method.destroy
            (pil_module.destroy (image_class.destroy
              (image_frombuffer_method.destroy g)))))))

end PythonSystem

/-! ## `PythonSystem`: ownership of the implementation -/

/-- The data member of a `PythonSystem` object: `impl_`, a
`std::unique_ptr<Impl>` (`none` is the null pointer, `some a` the address of
an `Impl`). -/
structure PythonSystemObj where
  impl_ : Option Nat
  deriving DecidableEq, Repr

/-- The `PythonSystem` objects created so far (an object is named by its index)
and the guest calls made so far. -/
structure Host where
  objects : List PythonSystemObj
  calls : List GuestCall
  deriving DecidableEq, Repr

namespace Host

/-- The constructor `PythonSystem(exe_dir)`: `impl_` is the result of
`std::make_unique<Impl>(exe_dir)`.  When the `Impl` constructor terminates
the process no object exists. -/
def construct (ops : PathOps) (dirs : BuildDirs) (guest : InitGuest) (exe_dir : String) :
    Host :=
  let r := Impl.ctor ops dirs guest exe_dir
  match r.2 with
  | .constructed => { objects := [{ impl_ := some 0 }], calls := r.1 }
  | .terminated _ => { objects := [], calls := r.1 }

/-- The defaulted move constructor `PythonSystem(PythonSystem&& other)`: the new
object takes `other.impl_`, which becomes null.  `other` is the object with
index `src`; an index that names no object leaves the state as it is. -/
def moveConstruct (src : Nat) (s : Host) : Host :=
  match s.objects[src]? with
  | none => s
  | some other =>
    { s with objects := s.objects.set src { impl_ := none } ++ [{ impl_ := other.impl_ }] }

/-- The defaulted destructor `~PythonSystem()` applied to the object with index
`i`: the destructor of `impl_` deletes the `Impl` it owns, if any, and that
runs `Impl::~Impl()`. -/
def destroy (i : Nat) (s : Host) : Host :=
  match s.objects[i]? with
  | some { impl_ := some _ } => { s with calls := s.calls ++ Impl.dtor }
  | _ => s

/-- A sequence of move constructions, each from the object with the given index. -/
def moves (srcs : List Nat) (s : Host) : Host :=
  srcs.foldl (fun st src => moveConstruct src st) s

/-- Whether each move construction of the sequence takes an object that exists
at that point as its source. -/
def validMoves : List Nat → Host → Bool
  | [], _ => true
  | src :: rest, s => decide (src < s.objects.length) && validMoves rest (s.moveConstruct src)

/-- Destruction of the objects with the given indices, in that order. -/
def destroyAll (order : List Nat) (s : Host) : Host :=
  order.foldl (fun st i => destroy i st) s

/-- Whether the object with index `i` holds a non-null `impl_`. -/
def owns (s : Host) (i : Nat) : Bool :=
  match s.objects[i]? with
  | some { impl_ := some _ } => true
  | _ => false

/-- Number of invocations of the guest finalisation routine so far. -/
def finalizeCount (s : Host) : Nat :=
  s.calls.count GuestCall.Py_Finalize

end Host

/-! ## Predicates used to state the properties -/

/-- The object that holds the implementation after a sequence of move
constructions, followed by hand: `owner` holds it before the sequence, when
`n` objects exist; a move from the holder hands it to the object the move
creates, whose index is the number of objects before it, and any other move
leaves it where it is. -/
def Host.finalOwner : List Nat → Nat → Nat → Nat
  | [], owner, _ => owner
  | src :: rest, owner, n => Host.finalOwner rest (if src = owner then n else owner) (n + 1)

/-- The façade result `r` relays the guest result `c`: the handle holds the
pointer the guest call returned and the guest state is the one the guest call
left; hence after a failed call (null returned, error indicator set) the
handle is empty and the error indicator is set, and after a call that returned
an object the handle is non-empty. -/
def Relays (r : PyObjectPtr × Guest) (c : Option PyObject × Guest) : Prop :=
  r.1.get = c.1 ∧ r.2 = c.2 ∧
  (c.1 = none → c.2.err.isSome = true → r.1.toBool = false ∧ r.2.err.isSome = true) ∧
  (c.1.isSome = true → r.1.toBool = true)

/-! ## Concrete instances used to evaluate the model -/

/-- Path operations on absolute paths that are already in normal form: joining
inserts a separator, normalisation and conversion keep the text. -/
def plainPaths : PathOps :=
  { lexically_normal := fun p => p,
    slash := fun p q => p ++ "/" ++ q,
    wstring := fun p => p }

/-- Build directories of the comment at the top of the constructor. -/
def linuxDirs : BuildDirs :=
  { AIHI_PY_STDLIB_DIR := "/usr/lib/python3.10",
    AIHI_PY_RUNTIME_LIB_DIR := "/usr/lib/x86_64-linux-gnu" }

def statusOk : PyStatus := { type := .OK, exitcode := 0 }

def statusError : PyStatus := { type := .ERROR, exitcode := 1 }

/-- A guest in which every configuration call succeeds. -/
def guestOk : InitGuest :=
  { Py_PreInitialize := fun _ => statusOk,
    PyConfig_SetString := fun _ => statusOk,
    PyWideStringList_Append := fun _ _ => statusOk,
    Py_InitializeFromConfig := fun _ => statusOk }

/-- A guest in which appending to a list that already holds two entries fails. -/
def guestAppendFails : InitGuest :=
  { guestOk with
    PyWideStringList_Append := fun l _ => if l.length = 2 then statusError else statusOk }

/-- An empty guest state. -/
def guest0 : Guest := { heap := [], err := none }

/-- A guest environment in which the module `PIL` cannot be imported; every
other import, attribute lookup and call yields a new object. -/
def envNoPIL : GuestEnv :=
  { PyImport_ImportModule := fun g name =>
      if name = "PIL" then (none, g.raise (.Other "ModuleNotFoundError"))
      else let r := g.alloc .other; (some r.1, r.2),
    PyObject_GetAttrString := fun g _ _ => let r := g.alloc .other; (some r.1, r.2),
    PyObject_CallObject := fun g _ _ => let r := g.alloc .other; (some r.1, r.2),
    PyObject_Print := fun g _ => g,
    PyErr_Print := fun g => { g with err := none },
    PyModule_GetDict := fun g _ => (none, g),
    PyDict_Keys := fun g _ => (none, g),
    PyList_Size := fun g _ => (0, g),
    PyList_GetItem := fun g _ _ => (none, g),
    PyUnicode_Check := fun g o => match g.value? o with
      | some (.unicode _) => true
      | _ => false,
    PyUnicode_AsUTF8 := fun g _ => g }

/-! ## Interpreter host: lemmas on the constructor -/

theorem Impl.appendPaths_ok (guest : InitGuest) (ps : List String) :
    ∀ config : PyConfig,
      (∀ j, j < ps.length →
        PyStatus_Exception (guest.PyWideStringList_Append
          (config.module_search_paths ++ (ps.map c_str).take j)
          ((ps.map c_str).getD j "")) = false) →
      Impl.appendPaths guest ps config =
        { trace := (ps.map c_str).map GuestCall.PyWideStringList_Append,
          next := .ok { config with
            module_search_paths := config.module_search_paths ++ ps.map c_str } } := by
  induction ps with
  | nil => intro config _; simp [Impl.appendPaths]
  | cons p rest ih =>
    intro config h
    have h0 := h 0 (by simp)
    simp only [List.map_cons, List.take_zero, List.append_nil, List.getD_cons_zero] at h0
    have hrest := ih { config with module_search_paths := config.module_search_paths ++ [c_str p] }
      (by
        intro j hj
        have := h (j + 1) (by simpa using hj)
        simpa using this)
    simp only [Impl.appendPaths, h0, hrest]
    simp

theorem Impl.appendPaths_fail (guest : InitGuest) (ps : List String) :
    ∀ (config : PyConfig) (k : Nat), k < ps.length →
      (∀ j, j < k →
        PyStatus_Exception (guest.PyWideStringList_Append
          (config.module_search_paths ++ (ps.map c_str).take j)
          ((ps.map c_str).getD j "")) = false) →
      PyStatus_Exception (guest.PyWideStringList_Append
          (config.module_search_paths ++ (ps.map c_str).take k)
          ((ps.map c_str).getD k "")) = true →
      Impl.appendPaths guest ps config =
        { trace := ((ps.map c_str).take (k + 1)).map GuestCall.PyWideStringList_Append ++
            [.PyConfig_Clear, .Py_ExitStatusException (guest.PyWideStringList_Append
              (config.module_search_paths ++ (ps.map c_str).take k)
              ((ps.map c_str).getD k ""))],
          next := .error (guest.PyWideStringList_Append
              (config.module_search_paths ++ (ps.map c_str).take k)
              ((ps.map c_str).getD k "")) } := by
  induction ps with
  | nil => intro config k hk; simp at hk
  | cons p rest ih =>
    intro config k hk hok hfail
    cases k with
    | zero =>
      simp only [List.map_cons, List.take_zero, List.append_nil, List.getD_cons_zero] at hfail
      simp [Impl.appendPaths, hfail]
    | succ k =>
      have h0 := hok 0 (by simp)
      simp only [List.map_cons, List.take_zero, List.append_nil, List.getD_cons_zero] at h0
      have hrest := ih
        { config with module_search_paths := config.module_search_paths ++ [c_str p] } k
        (by simpa using hk)
        (by
          intro j hj
          have := hok (j + 1) (by omega)
          simpa using this)
        (by simpa using hfail)
      simp only [Impl.appendPaths, h0, hrest]
      simp

theorem Impl.appendPaths_of_next_ok (guest : InitGuest) (ps : List String) :
    ∀ config c : PyConfig, (Impl.appendPaths guest ps config).next = .ok c →
      c = { config with module_search_paths := config.module_search_paths ++ ps.map c_str } ∧
      (Impl.appendPaths guest ps config).trace =
        (ps.map c_str).map GuestCall.PyWideStringList_Append := by
  induction ps with
  | nil =>
    intro config c h
    simp only [Impl.appendPaths, Except.ok.injEq] at h
    subst h
    simp [Impl.appendPaths]
  | cons p rest ih =>
    intro config c h
    by_cases hs : PyStatus_Exception
        (guest.PyWideStringList_Append config.module_search_paths (c_str p)) = true
    · simp [Impl.appendPaths, hs] at h
    · simp only [Impl.appendPaths, hs] at h ⊢
      have := ih _ c h
      simp [this.1, this.2]

theorem Impl.paths_length (ops : PathOps) (dirs : BuildDirs) (exe_dir : String) :
    (Impl.paths ops dirs exe_dir).length = 6 := by
  simp [Impl.paths]

theorem Impl.items_length (ops : PathOps) (dirs : BuildDirs) (exe_dir : String) :
    (Impl.items ops dirs exe_dir).length = 6 := by
  simp [Impl.items, Impl.paths]

theorem Impl.ctor_pre_fail (ops : PathOps) (dirs : BuildDirs) (guest : InitGuest)
    (exe_dir : String)
    (hpre : PyStatus_Exception (guest.Py_PreInitialize
      { isolated := 1, use_environment := 0, utf8_mode := 1 }) = true) :
    Impl.ctor ops dirs guest exe_dir =
      ([.PyPreConfig_InitIsolatedConfig,
        .Py_PreInitialize { isolated := 1, use_environment := 0, utf8_mode := 1 },
        .Py_ExitStatusException (guest.Py_PreInitialize
          { isolated := 1, use_environment := 0, utf8_mode := 1 })],
       .terminated (guest.Py_PreInitialize
          { isolated := 1, use_environment := 0, utf8_mode := 1 })) := by
  simp [Impl.ctor, PyPreConfig_InitIsolatedConfig, hpre]

theorem Impl.ctor_name_fail (ops : PathOps) (dirs : BuildDirs) (guest : InitGuest)
    (exe_dir : String)
    (hpre : PyStatus_Exception (guest.Py_PreInitialize
      { isolated := 1, use_environment := 0, utf8_mode := 1 }) = false)
    (hname : PyStatus_Exception (guest.PyConfig_SetString "AIHoloImager") = true) :
    Impl.ctor ops dirs guest exe_dir =
      ([.PyPreConfig_InitIsolatedConfig,
        .Py_PreInitialize { isolated := 1, use_environment := 0, utf8_mode := 1 },
        .PyConfig_InitIsolatedConfig,
        .PyConfig_SetString "AIHoloImager",
        .PyConfig_Clear,
        .Py_ExitStatusException (guest.PyConfig_SetString "AIHoloImager")],
       .terminated (guest.PyConfig_SetString "AIHoloImager")) := by
  simp [Impl.ctor, PyPreConfig_InitIsolatedConfig, hpre, hname]

theorem Impl.ctor_append_fail (ops : PathOps) (dirs : BuildDirs) (guest : InitGuest)
    (exe_dir : String)
    (hpre : PyStatus_Exception (guest.Py_PreInitialize
      { isolated := 1, use_environment := 0, utf8_mode := 1 }) = false)
    (hname : PyStatus_Exception (guest.PyConfig_SetString "AIHoloImager") = false)
    (k : Nat) (hk : k < 6)
    (hok : ∀ j, j < k → PyStatus_Exception (guest.PyWideStringList_Append
      ((Impl.items ops dirs exe_dir).take j) ((Impl.items ops dirs exe_dir).getD j "")) = false)
    (hfail : PyStatus_Exception (guest.PyWideStringList_Append
      ((Impl.items ops dirs exe_dir).take k) ((Impl.items ops dirs exe_dir).getD k "")) = true) :
    Impl.ctor ops dirs guest exe_dir =
      ([.PyPreConfig_InitIsolatedConfig,
        .Py_PreInitialize { isolated := 1, use_environment := 0, utf8_mode := 1 },
        .PyConfig_InitIsolatedConfig,
        .PyConfig_SetString "AIHoloImager"] ++
        ((Impl.items ops dirs exe_dir).take (k + 1)).map GuestCall.PyWideStringList_Append ++
        [.PyConfig_Clear,
         .Py_ExitStatusException (guest.PyWideStringList_Append
            ((Impl.items ops dirs exe_dir).take k) ((Impl.items ops dirs exe_dir).getD k ""))],
       .terminated (guest.PyWideStringList_Append
            ((Impl.items ops dirs exe_dir).take k) ((Impl.items ops dirs exe_dir).getD k ""))) := by
  have hloop := Impl.appendPaths_fail guest (Impl.paths ops dirs exe_dir)
    { isolated := 1, program_name := some "AIHoloImager", module_search_paths_set := 1,
      module_search_paths := [] } k (by rw [Impl.paths_length]; exact hk) hok hfail
  simp only [List.nil_append] at hloop
  simp [Impl.ctor, Impl.items, PyPreConfig_InitIsolatedConfig, PyConfig_InitIsolatedConfig,
    hpre, hname, hloop]

theorem Impl.ctor_loop_ok (ops : PathOps) (dirs : BuildDirs) (guest : InitGuest)
    (exe_dir : String)
    (hok : ∀ j, j < 6 → PyStatus_Exception (guest.PyWideStringList_Append
      ((Impl.items ops dirs exe_dir).take j) ((Impl.items ops dirs exe_dir).getD j "")) = false) :
    Impl.appendPaths guest (Impl.paths ops dirs exe_dir)
      { isolated := 1, program_name := some "AIHoloImager", module_search_paths_set := 1,
        module_search_paths := [] } =
      { trace := (Impl.items ops dirs exe_dir).map GuestCall.PyWideStringList_Append,
        next := .ok { isolated := 1, program_name := some "AIHoloImager",
                      module_search_paths_set := 1,
                      module_search_paths := Impl.items ops dirs exe_dir } } := by
  have hloop := Impl.appendPaths_ok guest (Impl.paths ops dirs exe_dir)
    { isolated := 1, program_name := some "AIHoloImager", module_search_paths_set := 1,
      module_search_paths := [] }
    (by
      intro j hj
      rw [Impl.paths_length] at hj
      exact hok j hj)
  simpa [Impl.items] using hloop

theorem Impl.ctor_init_fail (ops : PathOps) (dirs : BuildDirs) (guest : InitGuest)
    (exe_dir : String)
    (hpre : PyStatus_Exception (guest.Py_PreInitialize
      { isolated := 1, use_environment := 0, utf8_mode := 1 }) = false)
    (hname : PyStatus_Exception (guest.PyConfig_SetString "AIHoloImager") = false)
    (hok : ∀ j, j < 6 → PyStatus_Exception (guest.PyWideStringList_Append
      ((Impl.items ops dirs exe_dir).take j) ((Impl.items ops dirs exe_dir).getD j "")) = false)
    (hinit : PyStatus_Exception (guest.Py_InitializeFromConfig
      { isolated := 1, program_name := some "AIHoloImager", module_search_paths_set := 1,
        module_search_paths := Impl.items ops dirs exe_dir }) = true) :
    Impl.ctor ops dirs guest exe_dir =
      ([.PyPreConfig_InitIsolatedConfig,
        .Py_PreInitialize { isolated := 1, use_environment := 0, utf8_mode := 1 },
        .PyConfig_InitIsolatedConfig,
        .PyConfig_SetString "AIHoloImager"] ++
        (Impl.items ops dirs exe_dir).map GuestCall.PyWideStringList_Append ++
        [.Py_InitializeFromConfig
          { isolated := 1, program_name := some "AIHoloImager", module_search_paths_set := 1,
            module_search_paths := Impl.items ops dirs exe_dir },
         .PyConfig_Clear,
         .Py_ExitStatusException (guest.Py_InitializeFromConfig
          { isolated := 1, program_name := some "AIHoloImager", module_search_paths_set := 1,
            module_search_paths := Impl.items ops dirs exe_dir })],
       .terminated (guest.Py_InitializeFromConfig
          { isolated := 1, program_name := some "AIHoloImager", module_search_paths_set := 1,
            module_search_paths := Impl.items ops dirs exe_dir })) := by
  have hloop := Impl.ctor_loop_ok ops dirs guest exe_dir hok
  simp [Impl.ctor, PyPreConfig_InitIsolatedConfig, PyConfig_InitIsolatedConfig, hpre, hname,
    hloop, hinit]

theorem Impl.ctor_all_ok (ops : PathOps) (dirs : BuildDirs) (guest : InitGuest)
    (exe_dir : String)
    (hpre : PyStatus_Exception (guest.Py_PreInitialize
      { isolated := 1, use_environment := 0, utf8_mode := 1 }) = false)
    (hname : PyStatus_Exception (guest.PyConfig_SetString "AIHoloImager") = false)
    (hok : ∀ j, j < 6 → PyStatus_Exception (guest.PyWideStringList_Append
      ((Impl.items ops dirs exe_dir).take j) ((Impl.items ops dirs exe_dir).getD j "")) = false)
    (hinit : PyStatus_Exception (guest.Py_InitializeFromConfig
      { isolated := 1, program_name := some "AIHoloImager", module_search_paths_set := 1,
        module_search_paths := Impl.items ops dirs exe_dir }) = false) :
    Impl.ctor ops dirs guest exe_dir =
      ([.PyPreConfig_InitIsolatedConfig,
        .Py_PreInitialize { isolated := 1, use_environment := 0, utf8_mode := 1 },
        .PyConfig_InitIsolatedConfig,
        .PyConfig_SetString "AIHoloImager"] ++
        (Impl.items ops dirs exe_dir).map GuestCall.PyWideStringList_Append ++
        [.Py_InitializeFromConfig
          { isolated := 1, program_name := some "AIHoloImager", module_search_paths_set := 1,
            module_search_paths := Impl.items ops dirs exe_dir },
         .PyConfig_Clear,
         .PySys_GetObject "path",
         .PyObject_Print],
       .constructed) := by
  have hloop := Impl.ctor_loop_ok ops dirs guest exe_dir hok
  simp [Impl.ctor, PyPreConfig_InitIsolatedConfig, PyConfig_InitIsolatedConfig, hpre, hname,
    hloop, hinit]

theorem c_str_eq_self (s : String) (h : Char.ofNat 0 ∉ s.toList) : c_str s = s := by
  have htake : s.toList.takeWhile (fun ch => ch != Char.ofNat 0) = s.toList := by
    rw [List.takeWhile_eq_self_iff]
    intro ch hch
    have hne : ch ≠ Char.ofNat 0 := fun heq => h (heq ▸ hch)
    simpa using hne
  unfold c_str
  rw [htake]
  rfl

theorem Impl.items_eq_paths (ops : PathOps) (dirs : BuildDirs) (exe_dir : String)
    (hzero : ∀ p ∈ Impl.paths ops dirs exe_dir, Char.ofNat 0 ∉ p.toList) :
    Impl.items ops dirs exe_dir = Impl.paths ops dirs exe_dir := by
  unfold Impl.items
  have hgen : ∀ l : List String, (∀ p ∈ l, Char.ofNat 0 ∉ p.toList) → l.map c_str = l := by
    intro l
    induction l with
    | nil => intro _; rfl
    | cons p rest ih =>
      intro hl
      rw [List.map_cons, c_str_eq_self p (hl p (List.mem_cons_self p rest)),
        ih (fun q hq => hl q (List.mem_cons_of_mem p hq))]
  exact hgen _ hzero

theorem Impl.filterMap_appended (ps : List String) :
    (ps.map GuestCall.PyWideStringList_Append).filterMap GuestCall.appended? = ps := by
  induction ps with
  | nil => rfl
  | cons p rest ih => simp [GuestCall.appended?, ih]

theorem Impl.statuses_of_constructed (ops : PathOps) (dirs : BuildDirs) (guest : InitGuest)
    (exe_dir : String) (h : (Impl.ctor ops dirs guest exe_dir).2 = Outcome.constructed) :
    PyStatus_Exception (guest.Py_PreInitialize
      { isolated := 1, use_environment := 0, utf8_mode := 1 }) = false ∧
    PyStatus_Exception (guest.PyConfig_SetString "AIHoloImager") = false ∧
    (∀ j, j < 6 → PyStatus_Exception (guest.PyWideStringList_Append
      ((Impl.items ops dirs exe_dir).take j) ((Impl.items ops dirs exe_dir).getD j "")) = false) ∧
    PyStatus_Exception (guest.Py_InitializeFromConfig
      { isolated := 1, program_name := some "AIHoloImager", module_search_paths_set := 1,
        module_search_paths := Impl.items ops dirs exe_dir }) = false := by
  have hpre : PyStatus_Exception (guest.Py_PreInitialize
      { isolated := 1, use_environment := 0, utf8_mode := 1 }) = false := by
    by_contra hc
    rw [Impl.ctor_pre_fail ops dirs guest exe_dir (by simpa using hc)] at h
    simp at h
  have hname : PyStatus_Exception (guest.PyConfig_SetString "AIHoloImager") = false := by
    by_contra hc
    rw [Impl.ctor_name_fail ops dirs guest exe_dir hpre (by simpa using hc)] at h
    simp at h
  have hok : ∀ j, j < 6 → PyStatus_Exception (guest.PyWideStringList_Append
      ((Impl.items ops dirs exe_dir).take j) ((Impl.items ops dirs exe_dir).getD j "")) = false := by
    by_contra hc
    push_neg at hc
    have hex : ∃ j, j < 6 ∧ PyStatus_Exception (guest.PyWideStringList_Append
        ((Impl.items ops dirs exe_dir).take j) ((Impl.items ops dirs exe_dir).getD j "")) = true := by
      obtain ⟨j, hj, hf⟩ := hc
      exact ⟨j, hj, by simpa using hf⟩
    have hspec := Nat.find_spec hex
    have hmin : ∀ j, j < Nat.find hex → PyStatus_Exception (guest.PyWideStringList_Append
        ((Impl.items ops dirs exe_dir).take j) ((Impl.items ops dirs exe_dir).getD j "")) = false := by
      intro j hj
      have hnot := Nat.find_min hex hj
      have hj6 : j < 6 := lt_trans hj hspec.1
      simpa [hj6] using hnot
    rw [Impl.ctor_append_fail ops dirs guest exe_dir hpre hname (Nat.find hex) hspec.1 hmin
      hspec.2] at h
    simp at h
  have hinit : PyStatus_Exception (guest.Py_InitializeFromConfig
      { isolated := 1, program_name := some "AIHoloImager", module_search_paths_set := 1,
        module_search_paths := Impl.items ops dirs exe_dir }) = false := by
    by_contra hc
    rw [Impl.ctor_init_fail ops dirs guest exe_dir hpre hname hok (by simpa using hc)] at h
    simp at h
  exact ⟨hpre, hname, hok, hinit⟩

/-! ## Marshalling façade: lemmas -/

theorem relays_make (c : Option PyObject × Guest) : Relays (MakePyObjectPtr c.1, c.2) c := by
  refine ⟨rfl, rfl, ?_, ?_⟩
  · intro hnull herr
    exact ⟨by simp [MakePyObjectPtr, PyObjectPtr.toBool, hnull], herr⟩
  · intro hsome
    simpa [MakePyObjectPtr, PyObjectPtr.toBool] using hsome

theorem relays_of_eq (r : PyObjectPtr × Guest) (c : Option PyObject × Guest)
    (h : r = (MakePyObjectPtr c.1, c.2)) : Relays r c := by
  subst h
  exact relays_make c

/-! ## Ownership of the implementation: lemmas -/

theorem Host.destroy_objects (i : Nat) (s : Host) : (s.destroy i).objects = s.objects := by
  unfold Host.destroy
  split <;> rfl

theorem Host.destroy_owns (i j : Nat) (s : Host) : (s.destroy i).owns j = s.owns j := by
  simp [Host.owns, Host.destroy_objects]

theorem Host.destroy_count (i : Nat) (s : Host) :
    (s.destroy i).finalizeCount = s.finalizeCount + (if s.owns i = true then 1 else 0) := by
  unfold Host.destroy Host.owns Host.finalizeCount
  split <;> simp_all [Impl.dtor]

theorem Host.destroyAll_owns (order : List Nat) :
    ∀ (s : Host) (j : Nat), (s.destroyAll order).owns j = s.owns j := by
  induction order with
  | nil => intro s j; rfl
  | cons i rest ih =>
    intro s j
    have := ih (s.destroy i) j
    simpa [Host.destroyAll, Host.destroy_owns] using this

theorem Host.destroyAll_count (order : List Nat) :
    ∀ s : Host, (s.destroyAll order).finalizeCount =
      s.finalizeCount + order.countP (fun i => s.owns i) := by
  induction order with
  | nil => intro s; simp [Host.destroyAll]
  | cons i rest ih =>
    intro s
    have h1 := ih (s.destroy i)
    have h2 : (s.destroy i).destroyAll rest = s.destroyAll (i :: rest) := by
      simp [Host.destroyAll]
    rw [h2] at h1
    rw [h1, Host.destroy_count]
    have h3 : rest.countP (fun j => (s.destroy i).owns j) = rest.countP (fun j => s.owns j) := by
      congr 1
      funext j
      exact Host.destroy_owns i j s
    rw [h3, List.countP_cons]
    by_cases ho : s.owns i = true <;> simp [ho]; omega

theorem Host.moves_calls (srcs : List Nat) : ∀ s : Host, (s.moves srcs).calls = s.calls := by
  induction srcs with
  | nil => intro s; rfl
  | cons src rest ih =>
    intro s
    have h := ih (s.moveConstruct src)
    have hc : (s.moveConstruct src).calls = s.calls := by
      unfold Host.moveConstruct
      split <;> rfl
    simpa [Host.moves, hc] using h

theorem Host.owns_iff (s : Host) (i : Nat) :
    s.owns i = true ↔ ∃ a, s.objects[i]? = some { impl_ := some a } := by
  unfold Host.owns
  split
  · next a h => simp [h]
  · next h =>
    simp only [Bool.false_eq_true, false_iff, not_exists]
    intro a ha
    exact h a ha

theorem Host.owns_lt (s : Host) (i : Nat) (h : s.owns i = true) : i < s.objects.length := by
  obtain ⟨a, ha⟩ := (Host.owns_iff s i).1 h
  rcases Nat.lt_or_ge i s.objects.length with hlt | hge
  · exact hlt
  · rw [List.getElem?_eq_none hge] at ha
    simp at ha

theorem Host.moveConstruct_length (src : Nat) (s : Host) (hsrc : src < s.objects.length) :
    (s.moveConstruct src).objects.length = s.objects.length + 1 := by
  unfold Host.moveConstruct
  rw [List.getElem?_eq_getElem hsrc]
  simp

theorem Host.moveConstruct_owner (src k : Nat) (s : Host)
    (hvalid : src < s.objects.length) (hk : ∀ i, s.owns i = true ↔ i = k) :
    ∀ i, (s.moveConstruct src).owns i = true ↔
      i = (if src = k then s.objects.length else k) := by
  have hklt : k < s.objects.length := Host.owns_lt s k ((hk k).2 rfl)
  obtain ⟨a, ha⟩ := (Host.owns_iff s k).1 ((hk k).2 rfl)
  unfold Host.moveConstruct
  cases hsrc : s.objects[src]? with
  | none =>
    rw [List.getElem?_eq_getElem hvalid] at hsrc
    simp at hsrc
  | some other =>
    have hsrclt : src < s.objects.length := by
      rcases Nat.lt_or_ge src s.objects.length with hlt | hge
      · exact hlt
      · rw [List.getElem?_eq_none hge] at hsrc
        simp at hsrc
    by_cases hsk : src = k
    · subst hsk
      have ho : other = { impl_ := some a } := by
        rw [ha] at hsrc
        exact (Option.some.inj hsrc).symm
      subst ho
      intro i
      rw [Host.owns_iff, if_pos rfl]
      simp only
      rcases Nat.lt_trichotomy i s.objects.length with hlt | heq | hgt
      · have hne : i ≠ s.objects.length := Nat.ne_of_lt hlt
        rw [List.getElem?_append_left (by simpa using hlt)]
        by_cases hi : i = src
        · subst hi
          simp [hlt, hne]
        · have hown : ¬ (s.owns i = true) := fun h => hi ((hk i).1 h)
          rw [Host.owns_iff] at hown
          rw [List.getElem?_set_ne (Ne.symm hi)]
          simp only [hne, iff_false]
          exact hown
      · subst heq
        simp
      · have hne : i ≠ s.objects.length := Nat.ne_of_gt hgt
        rw [List.getElem?_eq_none (by simp; omega)]
        simp [hne]
    · have hnown : ¬ (s.owns src = true) := fun h => hsk ((hk src).1 h)
      have ho : other.impl_ = none := by
        rw [Host.owns_iff] at hnown
        cases hoi : other.impl_ with
        | none => rfl
        | some b =>
          exfalso
          apply hnown
          refine ⟨b, ?_⟩
          rw [hsrc, ← hoi]
      intro i
      rw [Host.owns_iff, if_neg hsk]
      simp only [ho]
      rcases Nat.lt_trichotomy i s.objects.length with hlt | heq | hgt
      · rw [List.getElem?_append_left (by simpa using hlt)]
        by_cases hi : i = src
        · subst hi
          simp [hlt, hsk]
        · rw [List.getElem?_set_ne (Ne.symm hi), ← Host.owns_iff]
          exact hk i
      · subst heq
        have hne : s.objects.length ≠ k := Nat.ne_of_gt hklt
        simp [hne]
      · have hne : i ≠ k := by omega
        rw [List.getElem?_eq_none (by simp; omega)]
        simp [hne]

theorem Host.moves_cons (src : Nat) (rest : List Nat) (s : Host) :
    s.moves (src :: rest) = (s.moveConstruct src).moves rest := rfl

theorem Host.moves_owner (srcs : List Nat) :
    ∀ (s : Host) (k : Nat), (∀ i, s.owns i = true ↔ i = k) → s.validMoves srcs = true →
      (∀ i, (s.moves srcs).owns i = true ↔ i = Host.finalOwner srcs k s.objects.length) ∧
      Host.finalOwner srcs k s.objects.length ∉ srcs ∧
      (Host.finalOwner srcs k s.objects.length = k ∨
        s.objects.length ≤ Host.finalOwner srcs k s.objects.length) ∧
      (s.moves srcs).objects.length = s.objects.length + srcs.length := by
  induction srcs with
  | nil =>
    intro s k hk _
    exact ⟨hk, by simp, Or.inl rfl, rfl⟩
  | cons src rest ih =>
    intro s k hk hv
    simp only [Host.validMoves, Bool.and_eq_true, decide_eq_true_eq] at hv
    obtain ⟨hsrc, hrest⟩ := hv
    have hlen := Host.moveConstruct_length src s hsrc
    have hown := Host.moveConstruct_owner src k s hsrc hk
    obtain ⟨h1, h2, h3, h4⟩ := ih (s.moveConstruct src) _ hown hrest
    rw [hlen] at h1 h2 h3 h4
    have hfinal : Host.finalOwner (src :: rest) k s.objects.length =
        Host.finalOwner rest (if src = k then s.objects.length else k)
          (s.objects.length + 1) := rfl
    rw [Host.moves_cons, hfinal]
    have hcase : (src = k ∧ (if src = k then s.objects.length else k) = s.objects.length) ∨
        (src ≠ k ∧ (if src = k then s.objects.length else k) = k) := by
      by_cases hsk : src = k
      · exact Or.inl ⟨hsk, if_pos hsk⟩
      · exact Or.inr ⟨hsk, if_neg hsk⟩
    generalize (if src = k then s.objects.length else k) = k1 at h1 h2 h3 hcase ⊢
    generalize Host.finalOwner rest k1 (s.objects.length + 1) = f at h1 h2 h3 ⊢
    refine ⟨h1, ?_, ?_, ?_⟩
    · intro hmem
      rcases List.mem_cons.1 hmem with heq | hin
      · rcases h3 with h3 | h3 <;> rcases hcase with ⟨hsk, hk1⟩ | ⟨hsk, hk1⟩ <;> omega
      · exact h2 hin
    · rcases h3 with h3 | h3 <;> rcases hcase with ⟨hsk, hk1⟩ | ⟨hsk, hk1⟩
      · exact Or.inr (by omega)
      · exact Or.inl (by omega)
      · exact Or.inr (by omega)
      · exact Or.inr (by omega)
    · rw [h4, List.length_cons]
      omega

theorem Impl.count_finalize_appends (ps : List String) :
    (ps.map GuestCall.PyWideStringList_Append).count GuestCall.Py_Finalize = 0 := by
  induction ps with
  | nil => rfl
  | cons p rest ih => simp [List.count_cons, ih]

theorem Host.construct_unique (ops : PathOps) (dirs : BuildDirs) (guest : InitGuest)
    (exe_dir : String) (h : (Impl.ctor ops dirs guest exe_dir).2 = Outcome.constructed) :
    (∀ i, (Host.construct ops dirs guest exe_dir).owns i = true ↔ i = 0) ∧
    (Host.construct ops dirs guest exe_dir).finalizeCount = 0 := by
  obtain ⟨hpre, hname, hok, hinit⟩ := Impl.statuses_of_constructed ops dirs guest exe_dir h
  have hctor := Impl.ctor_all_ok ops dirs guest exe_dir hpre hname hok hinit
  constructor
  · intro i
    rw [Host.owns_iff]
    simp only [Host.construct, h]
    cases i with
    | zero => simp
    | succ n => simp
  · simp only [Host.finalizeCount, Host.construct, h]
    rw [hctor]
    simp [List.count_append, Impl.count_finalize_appends, List.count_cons]

/-! ## Marshalling: lemmas -/

theorem Guest.alloc_value (g : Guest) (v : PyValue) :
    (g.alloc v).2.value? (g.alloc v).1 = some v := by
  simp [Guest.alloc, Guest.value?]

theorem to_size_t_of_length (n : Nat) (h : n ≤ PY_SSIZE_T_MAX) : to_size_t (n : Int) = n := by
  unfold to_size_t
  unfold PY_SSIZE_T_MAX at h
  have h1 : ((n : Int) % 2 ^ 64) = (n : Int) := by
    apply Int.emod_eq_of_lt <;> omega
  rw [h1]
  simp

theorem View.elems_terminated {α : Type} (l : List α) (z : α) :
    View.elems { data := some (l ++ [z]), size := l.length } = some l := by
  simp [View.elems]

/-- On an object that is not a guest byte string `Cast<std::span<const std::byte>>`
returns a null pointer with length `SIZE_MAX`. -/
theorem PythonSystem.CastBytes_of_not_bytes (g : Guest) (o : PyObject)
    (h : ∀ b, g.value? o ≠ some (.bytes b)) :
    (PythonSystem.CastBytes g o).1 = { data := none, size := SIZE_MAX } := by
  have h1 : PyBytes_Size g o = (-1, g.raise .TypeError) := by
    unfold PyBytes_Size
    split
    · next b hb => exact absurd hb (h b)
    · rfl
  have h2 : (PyBytes_AsString (g.raise .TypeError) o).1 = none := by
    unfold PyBytes_AsString
    split
    · next b hb => exact absurd hb (h b)
    · rfl
  simp only [PythonSystem.CastBytes, h1, h2]
  simp [to_size_t, SIZE_MAX]

/-- On an object that is not a guest string `Cast<std::wstring_view>` returns a
null pointer whose length is the value the local `size` held before the call. -/
theorem PythonSystem.CastWStringView_of_not_unicode (size0 : Int) (g : Guest) (o : PyObject)
    (h : ∀ s, g.value? o ≠ some (.unicode s)) :
    (PythonSystem.CastWStringView size0 g o).1 = { data := none, size := to_size_t size0 } := by
  have h1 : PyUnicode_AsWideCharString g o size0 = (none, size0, g.raise .TypeError) := by
    unfold PyUnicode_AsWideCharString
    split
    · next s hs => exact absurd hs (h s)
    · rfl
  simp only [PythonSystem.CastWStringView, h1]

/-! ## `PythonSystem::Test`: where an empty handle can be used -/

/-- The checked uses are safe: a run of `Test` can only fault at the two handles
used without a check at the end, `pil_module` and `image_class`. -/
theorem PythonSystem.Test_fault_only_in_tail (env : GuestEnv) (g : Guest) (name : String)
    (h : PythonSystem.Test env g = .error (.emptyHandle name)) :
    name = "pil_module" ∨ name = "image_class" := by
  unfold PythonSystem.Test at h
  rcases hI : PythonSystem.Import env g "MaskGenerator" with ⟨⟨pm⟩, g1⟩
  simp only [hI] at h
  cases pm with
  | none => simp [PyObjectPtr.toBool] at h
  | some m =>
    simp only [PyObjectPtr.toBool, PyObjectPtr.use, Option.isSome_some, Bool.not_true,
      Bool.false_eq_true, if_false, bind, Except.bind] at h
    rcases hC : PythonSystem.GetAttr env (PythonSystem.listModule env g1 m) m "MaskGenerator" with ⟨⟨pc⟩, g2⟩
    simp only [hC] at h
    cases pc with
    | none => simp at h
    | some c =>
      simp only [Option.isSome_some, Bool.not_true, Bool.false_eq_true, if_false] at h
      rcases hK : PythonSystem.CallObject env g2 c with ⟨⟨pi⟩, g3⟩
      simp only [hK] at h
      cases pi with
      | none => simp at h
      | some i =>
        simp only [Option.isSome_some, Bool.not_true, Bool.false_eq_true, if_false] at h
        generalize hg4 : (if (!(PythonSystem.GetAttr env g3 i "Gen").1.ptr.isSome) = true then
          env.PyErr_Print (PythonSystem.GetAttr env g3 i "Gen").2 else (PythonSystem.GetAttr env g3 i "Gen").2) = g4 at h
        rcases hP : PythonSystem.Import env g4 "PIL" with ⟨⟨pp⟩, g5⟩
        simp only [hP] at h
        cases pp with
        | none =>
          simp only [Except.error.injEq, Fault.emptyHandle.injEq] at h
          exact Or.inl h.symm
        | some pil =>
          simp only [] at h
          rcases hG : PythonSystem.GetAttr env g5 pil "Image" with ⟨⟨pg⟩, g6⟩
          simp only [hG] at h
          cases pg with
          | none =>
            simp only [Except.error.injEq, Fault.emptyHandle.injEq] at h
            exact Or.inr h.symm
          | some image => simp at h

/-! ## Interpreter host: search path and failure handling -/

/-- C1 as stated fails: for an `exe_dir` that holds a zero character (`/opt`,
a zero character, `x`) construction succeeds, but the three entries derived
from `exe_dir` reach the configuration cut at the zero character: all three
are `/opt`, none is the normalised path, and they repeat. -/
theorem C1_search_path_six_entries_counterexample :
    (Impl.ctor plainPaths linuxDirs guestOk "/opt\x00x").2 = Outcome.constructed ∧
    (Impl.ctor plainPaths linuxDirs guestOk "/opt\x00x").1.filterMap GuestCall.appended? =
      [ "/usr/lib/python3.10",
        "/usr/lib/python3.10/config-3.10-x86_64-linux-gnu",
        "/usr/lib/x86_64-linux-gnu",
        "/opt", "/opt", "/opt" ] ∧
    ¬ ∃ config : PyConfig,
      (∀ c, GuestCall.Py_InitializeFromConfig c ∈
        (Impl.ctor plainPaths linuxDirs guestOk "/opt\x00x").1 ↔ c = config) ∧
      config.module_search_paths_set = 1 ∧
      config.module_search_paths =
        [ plainPaths.wstring (plainPaths.lexically_normal linuxDirs.AIHI_PY_STDLIB_DIR),
          plainPaths.wstring (plainPaths.lexically_normal
            (plainPaths.slash linuxDirs.AIHI_PY_STDLIB_DIR "config-3.10-x86_64-linux-gnu")),
          plainPaths.wstring (plainPaths.lexically_normal linuxDirs.AIHI_PY_RUNTIME_LIB_DIR),
          plainPaths.wstring (plainPaths.lexically_normal "/opt\x00x"),
          plainPaths.wstring (plainPaths.lexically_normal
            (plainPaths.slash "/opt\x00x" "Python/Lib/site-packages")),
          plainPaths.wstring (plainPaths.lexically_normal
            (plainPaths.slash "/opt\x00x" "InstantMesh")) ] ∧
      (Impl.ctor plainPaths linuxDirs guestOk "/opt\x00x").1.filterMap GuestCall.appended? =
        config.module_search_paths := by
  refine ⟨by decide, by decide, ?_⟩
  rintro ⟨config, _, _, hpaths, happended⟩
  rw [hpaths] at happended
  exact absurd happended (by decide)

/-- C1, amended: when none of the six normalised paths holds a zero character
and construction of the host succeeds, the guest runtime is initialised from
exactly one configuration; its module search path is marked explicitly set and
holds six entries in this order: the normalised stdlib directory, its
`config-3.10-x86_64-linux-gnu` subdirectory, the runtime library directory,
`exe_dir`, `exe_dir/Python/Lib/site-packages` and `exe_dir/InstantMesh`; the
items appended to the configuration are these six, in the same order, none
dropped or repeated. -/
theorem C1_search_path_six_entries (ops : PathOps) (dirs : BuildDirs) (guest : InitGuest)
    (exe_dir : String)
    (hzero : ∀ p ∈ Impl.paths ops dirs exe_dir, Char.ofNat 0 ∉ p.toList)
    (h : (Impl.ctor ops dirs guest exe_dir).2 = Outcome.constructed) :
    ∃ config : PyConfig,
      (∀ c, GuestCall.Py_InitializeFromConfig c ∈ (Impl.ctor ops dirs guest exe_dir).1 ↔
        c = config) ∧
      config.module_search_paths_set = 1 ∧
      config.module_search_paths =
        [ ops.wstring (ops.lexically_normal dirs.AIHI_PY_STDLIB_DIR),
          ops.wstring (ops.lexically_normal
            (ops.slash dirs.AIHI_PY_STDLIB_DIR "config-3.10-x86_64-linux-gnu")),
          ops.wstring (ops.lexically_normal dirs.AIHI_PY_RUNTIME_LIB_DIR),
          ops.wstring (ops.lexically_normal exe_dir),
          ops.wstring (ops.lexically_normal (ops.slash exe_dir "Python/Lib/site-packages")),
          ops.wstring (ops.lexically_normal (ops.slash exe_dir "InstantMesh")) ] ∧
      (Impl.ctor ops dirs guest exe_dir).1.filterMap GuestCall.appended? =
        config.module_search_paths := by
  obtain ⟨hpre, hname, hok, hinit⟩ := Impl.statuses_of_constructed ops dirs guest exe_dir h
  have hitems := Impl.items_eq_paths ops dirs exe_dir hzero
  refine ⟨{ isolated := 1, program_name := some "AIHoloImager", module_search_paths_set := 1,
            module_search_paths := Impl.paths ops dirs exe_dir }, ?_, rfl, rfl, ?_⟩
  · intro c
    rw [Impl.ctor_all_ok ops dirs guest exe_dir hpre hname hok hinit, hitems]
    simp
  · rw [Impl.ctor_all_ok ops dirs guest exe_dir hpre hname hok hinit, hitems]
    simp only [List.filterMap_append, Impl.filterMap_appended]
    simp [GuestCall.appended?]

/-- Witness for C1: a guest in which every configuration call succeeds, with
`exe_dir = /opt/app/bin`. -/
theorem C1_search_path_six_entries_witness :
    (∀ p ∈ Impl.paths plainPaths linuxDirs "/opt/app/bin", Char.ofNat 0 ∉ p.toList) ∧
    (Impl.ctor plainPaths linuxDirs guestOk "/opt/app/bin").2 = Outcome.constructed ∧
    ∃ config : PyConfig,
      (∀ c, GuestCall.Py_InitializeFromConfig c ∈
        (Impl.ctor plainPaths linuxDirs guestOk "/opt/app/bin").1 ↔ c = config) ∧
      config.module_search_paths_set = 1 ∧
      config.module_search_paths =
        [ "/usr/lib/python3.10",
          "/usr/lib/python3.10/config-3.10-x86_64-linux-gnu",
          "/usr/lib/x86_64-linux-gnu",
          "/opt/app/bin",
          "/opt/app/bin/Python/Lib/site-packages",
          "/opt/app/bin/InstantMesh" ] ∧
      (Impl.ctor plainPaths linuxDirs guestOk "/opt/app/bin").1.filterMap GuestCall.appended? =
        config.module_search_paths :=
  ⟨by decide, by decide,
    C1_search_path_six_entries plainPaths linuxDirs guestOk "/opt/app/bin" (by decide)
      (by decide)⟩

/-- C2: the runs of the constructor, by the first guest call that reports a
failure.  A failing pre-initialisation exits at once.  Otherwise a failure of
setting the program name, of the append with index `k` (the earlier appends
having succeeded), or of the initialisation from the configuration is followed
by `PyConfig_Clear` and `Py_ExitStatusException` with that status and by
nothing else, and the process is terminated with that status; the runtime is
initialised from the configuration only after the program name and all six
appends succeeded.  When no call fails the configuration is cleared right
after the runtime is initialised and the object is constructed. -/
theorem C2_init_failure_clears_and_exits (ops : PathOps) (dirs : BuildDirs)
    (guest : InitGuest) (exe_dir : String) :
    (PyStatus_Exception (guest.Py_PreInitialize
        { isolated := 1, use_environment := 0, utf8_mode := 1 }) = true →
      Impl.ctor ops dirs guest exe_dir =
        ([.PyPreConfig_InitIsolatedConfig,
          .Py_PreInitialize { isolated := 1, use_environment := 0, utf8_mode := 1 },
          .Py_ExitStatusException (guest.Py_PreInitialize
            { isolated := 1, use_environment := 0, utf8_mode := 1 })],
         .terminated (guest.Py_PreInitialize
            { isolated := 1, use_environment := 0, utf8_mode := 1 }))) ∧
    (PyStatus_Exception (guest.Py_PreInitialize
        { isolated := 1, use_environment := 0, utf8_mode := 1 }) = false →
      (PyStatus_Exception (guest.PyConfig_SetString "AIHoloImager") = true →
        Impl.ctor ops dirs guest exe_dir =
          ([.PyPreConfig_InitIsolatedConfig,
            .Py_PreInitialize { isolated := 1, use_environment := 0, utf8_mode := 1 },
            .PyConfig_InitIsolatedConfig,
            .PyConfig_SetString "AIHoloImager",
            .PyConfig_Clear,
            .Py_ExitStatusException (guest.PyConfig_SetString "AIHoloImager")],
           .terminated (guest.PyConfig_SetString "AIHoloImager"))) ∧
      (PyStatus_Exception (guest.PyConfig_SetString "AIHoloImager") = false →
        (∀ k, k < 6 →
          (∀ j, j < k → PyStatus_Exception (guest.PyWideStringList_Append
            ((Impl.items ops dirs exe_dir).take j)
            ((Impl.items ops dirs exe_dir).getD j "")) = false) →
          PyStatus_Exception (guest.PyWideStringList_Append
            ((Impl.items ops dirs exe_dir).take k)
            ((Impl.items ops dirs exe_dir).getD k "")) = true →
          Impl.ctor ops dirs guest exe_dir =
            ([.PyPreConfig_InitIsolatedConfig,
              .Py_PreInitialize { isolated := 1, use_environment := 0, utf8_mode := 1 },
              .PyConfig_InitIsolatedConfig,
              .PyConfig_SetString "AIHoloImager"] ++
              ((Impl.items ops dirs exe_dir).take (k + 1)).map
                GuestCall.PyWideStringList_Append ++
              [.PyConfig_Clear,
               .Py_ExitStatusException (guest.PyWideStringList_Append
                  ((Impl.items ops dirs exe_dir).take k)
                  ((Impl.items ops dirs exe_dir).getD k ""))],
             .terminated (guest.PyWideStringList_Append
                  ((Impl.items ops dirs exe_dir).take k)
                  ((Impl.items ops dirs exe_dir).getD k "")))) ∧
        ((∀ j, j < 6 → PyStatus_Exception (guest.PyWideStringList_Append
            ((Impl.items ops dirs exe_dir).take j)
            ((Impl.items ops dirs exe_dir).getD j "")) = false) →
          (PyStatus_Exception (guest.Py_InitializeFromConfig
              { isolated := 1, program_name := some "AIHoloImager",
                module_search_paths_set := 1,
                module_search_paths := Impl.items ops dirs exe_dir }) = true →
            Impl.ctor ops dirs guest exe_dir =
              ([.PyPreConfig_InitIsolatedConfig,
                .Py_PreInitialize { isolated := 1, use_environment := 0, utf8_mode := 1 },
                .PyConfig_InitIsolatedConfig,
                .PyConfig_SetString "AIHoloImager"] ++
                (Impl.items ops dirs exe_dir).map GuestCall.PyWideStringList_Append ++
                [.Py_InitializeFromConfig
                  { isolated := 1, program_name := some "AIHoloImager",
                    module_search_paths_set := 1,
                    module_search_paths := Impl.items ops dirs exe_dir },
                 .PyConfig_Clear,
                 .Py_ExitStatusException (guest.Py_InitializeFromConfig
                  { isolated := 1, program_name := some "AIHoloImager",
                    module_search_paths_set := 1,
                    module_search_paths := Impl.items ops dirs exe_dir })],
               .terminated (guest.Py_InitializeFromConfig
                  { isolated := 1, program_name := some "AIHoloImager",
                    module_search_paths_set := 1,
                    module_search_paths := Impl.items ops dirs exe_dir }))) ∧
          (PyStatus_Exception (guest.Py_InitializeFromConfig
              { isolated := 1, program_name := some "AIHoloImager",
                module_search_paths_set := 1,
                module_search_paths := Impl.items ops dirs exe_dir }) = false →
            Impl.ctor ops dirs guest exe_dir =
              ([.PyPreConfig_InitIsolatedConfig,
                .Py_PreInitialize { isolated := 1, use_environment := 0, utf8_mode := 1 },
                .PyConfig_InitIsolatedConfig,
                .PyConfig_SetString "AIHoloImager"] ++
                (Impl.items ops dirs exe_dir).map GuestCall.PyWideStringList_Append ++
                [.Py_InitializeFromConfig
                  { isolated := 1, program_name := some "AIHoloImager",
                    module_search_paths_set := 1,
                    module_search_paths := Impl.items ops dirs exe_dir },
                 .PyConfig_Clear,
                 .PySys_GetObject "path",
                 .PyObject_Print],
               .constructed))))) := by
  refine ⟨Impl.ctor_pre_fail ops dirs guest exe_dir, fun hpre => ⟨?_, fun hname => ⟨?_, ?_⟩⟩⟩
  · exact Impl.ctor_name_fail ops dirs guest exe_dir hpre
  · intro k hk hok hfail
    exact Impl.ctor_append_fail ops dirs guest exe_dir hpre hname k hk hok hfail
  · intro hok
    exact ⟨Impl.ctor_init_fail ops dirs guest exe_dir hpre hname hok,
      Impl.ctor_all_ok ops dirs guest exe_dir hpre hname hok⟩

/-- Witness for C2: the third append (index 2) fails; the two entries before
it and the failing one are the only appends, then the configuration is cleared
and the process exits with the failing status. -/
theorem C2_init_failure_clears_and_exits_witness :
    Impl.ctor plainPaths linuxDirs guestAppendFails "/opt/app/bin" =
      ([.PyPreConfig_InitIsolatedConfig,
        .Py_PreInitialize { isolated := 1, use_environment := 0, utf8_mode := 1 },
        .PyConfig_InitIsolatedConfig,
        .PyConfig_SetString "AIHoloImager",
        .PyWideStringList_Append "/usr/lib/python3.10",
        .PyWideStringList_Append "/usr/lib/python3.10/config-3.10-x86_64-linux-gnu",
        .PyWideStringList_Append "/usr/lib/x86_64-linux-gnu",
        .PyConfig_Clear,
        .Py_ExitStatusException statusError],
       .terminated statusError) :=
  ((C2_init_failure_clears_and_exits plainPaths linuxDirs guestAppendFails "/opt/app/bin").2
    (by decide)).2 (by decide) |>.1 2 (by decide) (by decide) (by decide)

/-! ## Marshalling façade: handles returned and ownership transfer -/

/-- C3: each façade operation that returns a handle (`Import`, `GetAttr`, both
`CallObject` overloads, the three `MakeObject` overloads, `MakeTuple`) returns
a handle holding exactly the pointer the underlying guest call returned, and
leaves the guest state (every reference count, the error indicator) exactly as
that call left it.  So after a guest call that returned null with the error
indicator set the handle is empty and the error indicator is set, and after a
guest call that returned an object the handle is non-empty. -/
theorem C3_handle_relays_guest_result (env : GuestEnv) (g : Guest) (name : String)
    (object args : PyObject) (value : Int) (str : List wchar_t) (mem : List byte)
    (size : Nat) :
    Relays (PythonSystem.Import env g name) (env.PyImport_ImportModule g name) ∧
    Relays (PythonSystem.GetAttr env g object name)
      (env.PyObject_GetAttrString (env.PyObject_Print g object) object name) ∧
    Relays (PythonSystem.CallObject env g object) (env.PyObject_CallObject g object none) ∧
    Relays (PythonSystem.CallObjectArgs env g object args)
      (env.PyObject_CallObject g object (some args)) ∧
    Relays (PythonSystem.MakeObjectLong g value) (PyLong_FromLong g value) ∧
    Relays (PythonSystem.MakeObjectWString g str) (PyUnicode_FromWideChar g str) ∧
    Relays (PythonSystem.MakeObjectBytes g mem) (PyBytes_FromStringAndSize g mem) ∧
    Relays (PythonSystem.MakeTuple g size) (PyTuple_New g (size : Int)) := by
  refine ⟨?_, ?_, ?_, ?_, ?_, ?_, ?_, ?_⟩ <;>
    exact relays_of_eq _ _ rfl

theorem Host.construct_length (ops : PathOps) (dirs : BuildDirs) (guest : InitGuest)
    (exe_dir : String) (h : (Impl.ctor ops dirs guest exe_dir).2 = Outcome.constructed) :
    (Host.construct ops dirs guest exe_dir).objects.length = 1 := by
  simp [Host.construct, h]

/-! ## Ownership of the implementation: finalisation -/

/-- C5: after a successful construction and any sequence of move
constructions, each from an object that exists, exactly one object holds a
non-null `impl_`: the one the implementation was handed to last, which is
never an object that was moved from.  When all objects are then destroyed, in
any order, destroying a moved-from object never invokes `Py_Finalize`,
destroying the holder invokes it once, at every point of the destruction
sequence the number of `Py_Finalize` calls is 1 if the holder has been
destroyed and 0 otherwise, and at the end it is exactly 1. -/
theorem C5_finalize_exactly_once (ops : PathOps) (dirs : BuildDirs) (guest : InitGuest)
    (exe_dir : String) (srcs order : List Nat)
    (hc : (Impl.ctor ops dirs guest exe_dir).2 = Outcome.constructed)
    (hvalid : (Host.construct ops dirs guest exe_dir).validMoves srcs = true)
    (hperm : order.Perm (List.range (srcs.length + 1))) :
    ((Host.construct ops dirs guest exe_dir).moves srcs).objects.length = srcs.length + 1 ∧
    (∀ i, ((Host.construct ops dirs guest exe_dir).moves srcs).owns i = true ↔
      i = Host.finalOwner srcs 0 1) ∧
    Host.finalOwner srcs 0 1 ∉ srcs ∧
    (∀ i ∈ srcs, ∀ n,
      ((((Host.construct ops dirs guest exe_dir).moves srcs).destroyAll
        (order.take n)).destroy i).finalizeCount =
      (((Host.construct ops dirs guest exe_dir).moves srcs).destroyAll
        (order.take n)).finalizeCount) ∧
    (∀ n,
      ((((Host.construct ops dirs guest exe_dir).moves srcs).destroyAll
        (order.take n)).destroy (Host.finalOwner srcs 0 1)).finalizeCount =
      (((Host.construct ops dirs guest exe_dir).moves srcs).destroyAll
        (order.take n)).finalizeCount + 1) ∧
    (∀ n, (((Host.construct ops dirs guest exe_dir).moves srcs).destroyAll
        (order.take n)).finalizeCount =
      if Host.finalOwner srcs 0 1 ∈ order.take n then 1 else 0) ∧
    (((Host.construct ops dirs guest exe_dir).moves srcs).destroyAll order).finalizeCount
      = 1 := by
  obtain ⟨h0, hcount0⟩ := Host.construct_unique ops dirs guest exe_dir hc
  have hlen0 := Host.construct_length ops dirs guest exe_dir hc
  obtain ⟨howner, hnotsrc, -, hlen⟩ := Host.moves_owner srcs _ 0 h0 hvalid
  rw [hlen0] at howner hnotsrc hlen
  have hcount : ((Host.construct ops dirs guest exe_dir).moves srcs).finalizeCount = 0 := by
    simpa [Host.finalizeCount, Host.moves_calls] using hcount0
  have hnodup : order.Nodup := hperm.nodup_iff.2 (List.nodup_range _)
  have hmem : Host.finalOwner srcs 0 1 ∈ order := by
    rw [hperm.mem_iff, List.mem_range]
    have hlt := Host.owns_lt _ _ ((howner _).2 rfl)
    omega
  have hcountP : ∀ l : List Nat, l.Nodup →
      (((Host.construct ops dirs guest exe_dir).moves srcs).destroyAll l).finalizeCount =
        if Host.finalOwner srcs 0 1 ∈ l then 1 else 0 := by
    intro l hl
    rw [Host.destroyAll_count, hcount, Nat.zero_add]
    have hfun : (fun i => ((Host.construct ops dirs guest exe_dir).moves srcs).owns i) =
        (fun i => decide (i = Host.finalOwner srcs 0 1)) := by
      funext i
      by_cases hi : i = Host.finalOwner srcs 0 1
      · simp [hi, (howner _).2 rfl]
      · have : ¬ (((Host.construct ops dirs guest exe_dir).moves srcs).owns i = true) :=
          fun ho => hi ((howner i).1 ho)
        simp [hi, this]
    rw [hfun]
    have heq : l.countP (fun i => decide (i = Host.finalOwner srcs 0 1)) =
        l.count (Host.finalOwner srcs 0 1) := by
      rw [List.count_eq_countP]
      congr 1
    rw [heq, List.count_eq_of_nodup hl]
  refine ⟨by omega, howner, hnotsrc, ?_, ?_,
    fun n => hcountP _ (hnodup.sublist (List.take_sublist n order)), ?_⟩
  · intro i hi n
    have hne : i ≠ Host.finalOwner srcs 0 1 := fun heq => hnotsrc (heq ▸ hi)
    have hno : ¬ (((Host.construct ops dirs guest exe_dir).moves srcs).owns i = true) :=
      fun ho => hne ((howner i).1 ho)
    rw [Host.destroy_count, Host.destroyAll_owns]
    simp [hno]
  · intro n
    rw [Host.destroy_count, Host.destroyAll_owns]
    simp [(howner _).2 rfl]
  · rw [hcountP order hnodup]
    simp [hmem]

/-- Witness for C5: three move constructions (from the original, from the
first copy, from the moved-from original) leave the implementation with
object 2; destruction in the order 2, 0, 3, 1 invokes `Py_Finalize` once, when
object 2 is destroyed. -/
theorem C5_finalize_exactly_once_witness :
    Host.finalOwner [0, 1, 0] 0 1 = 2 ∧
    (∀ n, (((Host.construct plainPaths linuxDirs guestOk "/opt/app/bin").moves
        [0, 1, 0]).destroyAll ([2, 0, 3, 1].take n)).finalizeCount =
          if 2 ∈ [2, 0, 3, 1].take n then 1 else 0) ∧
    (((Host.construct plainPaths linuxDirs guestOk "/opt/app/bin").moves
        [0, 1, 0]).destroyAll [2, 0, 3, 1]).finalizeCount = 1 :=
  have h := C5_finalize_exactly_once plainPaths linuxDirs guestOk "/opt/app/bin" [0, 1, 0]
    [2, 0, 3, 1] (by decide) (by decide) (by decide)
  ⟨rfl, h.2.2.2.2.2.1, h.2.2.2.2.2.2⟩

/-! ## Marshalling: round trips -/

/-- C6: for every value `v` of the host type `long`, `MakeObject(v)` returns a
non-empty handle and `Cast<long>` applied to its object returns `v`. -/
theorem C6_long_round_trip (g : Guest) (v : Int) (hmin : LONG_MIN ≤ v) (hmax : v ≤ LONG_MAX) :
    ∃ o, (PythonSystem.MakeObjectLong g v).1.get = some o ∧
      (PythonSystem.CastLong (PythonSystem.MakeObjectLong g v).2 o).1 = v := by
  refine ⟨g.heap.length, rfl, ?_⟩
  have hval : (PythonSystem.MakeObjectLong g v).2.value? g.heap.length = some (.long v) :=
    Guest.alloc_value g (.long v)
  simp [PythonSystem.CastLong, PyLong_AsLong, hval, hmin, hmax]

/-- Witness for C6: the value 42 of scenario S5, and the value -1, which
`PyLong_AsLong` also uses to report an error. -/
theorem C6_long_round_trip_witness :
    (∃ o, (PythonSystem.MakeObjectLong guest0 42).1.get = some o ∧
      (PythonSystem.CastLong (PythonSystem.MakeObjectLong guest0 42).2 o).1 = 42) ∧
    (∃ o, (PythonSystem.MakeObjectLong guest0 (-1)).1.get = some o ∧
      (PythonSystem.CastLong (PythonSystem.MakeObjectLong guest0 (-1)).2 o).1 = -1) :=
  ⟨C6_long_round_trip guest0 42 (by decide) (by decide),
   C6_long_round_trip guest0 (-1) (by decide) (by decide)⟩

/-- C7 as stated fails: for the one-character wide string holding the value
1114112 (hexadecimal 110000, above the largest code point) `MakeObject`
returns an empty handle, so there is no object for `Cast` to convert. -/
theorem C7_wstring_round_trip_counterexample :
    (PythonSystem.MakeObjectWString guest0 [1114112]).1.toBool = false ∧
    ¬ ∃ o, (PythonSystem.MakeObjectWString guest0 [1114112]).1.get = some o ∧
      (PythonSystem.CastWStringView 0
        (PythonSystem.MakeObjectWString guest0 [1114112]).2 o).1.size = 1 ∧
      (PythonSystem.CastWStringView 0
        (PythonSystem.MakeObjectWString guest0 [1114112]).2 o).1.elems = some [1114112] := by
  decide

/-- C7, amended: for every wide string `s` whose characters are all at most
`MAX_UNICODE` (the empty string and strings with embedded zeros included),
`MakeObject(s)` returns a non-empty handle and `Cast<std::wstring_view>`
applied to its object returns a view of the same length as `s` with the same
characters in the same positions, whatever the local `size` held before. -/
theorem C7_wstring_round_trip (g : Guest) (s : List wchar_t) (size0 : Int)
    (hlen : s.length ≤ PY_SSIZE_T_MAX) (hrange : ∀ ch ∈ s, ch ≤ MAX_UNICODE) :
    ∃ o, (PythonSystem.MakeObjectWString g s).1.get = some o ∧
      (PythonSystem.CastWStringView size0
        (PythonSystem.MakeObjectWString g s).2 o).1.size = s.length ∧
      (PythonSystem.CastWStringView size0
        (PythonSystem.MakeObjectWString g s).2 o).1.elems = some s := by
  have hall : s.all (fun ch => decide (ch ≤ MAX_UNICODE)) = true := by
    simpa [List.all_eq_true] using hrange
  have hmake : PythonSystem.MakeObjectWString g s =
      (MakePyObjectPtr (some (g.alloc (.unicode s)).1), (g.alloc (.unicode s)).2) := by
    simp [PythonSystem.MakeObjectWString, PyUnicode_FromWideChar, hall]
  have hval := Guest.alloc_value g (.unicode s)
  refine ⟨(g.alloc (.unicode s)).1, by rw [hmake]; rfl, ?_, ?_⟩
  · rw [hmake]
    simp only [PythonSystem.CastWStringView, PyUnicode_AsWideCharString, hval]
    exact to_size_t_of_length s.length hlen
  · rw [hmake]
    simp only [PythonSystem.CastWStringView, PyUnicode_AsWideCharString, hval]
    rw [to_size_t_of_length s.length hlen]
    exact View.elems_terminated s 0

/-- Witness for C7: the string `h`, zero, `i` (an embedded zero), and the
empty string. -/
theorem C7_wstring_round_trip_witness :
    (∃ o, (PythonSystem.MakeObjectWString guest0 [104, 0, 105]).1.get = some o ∧
      (PythonSystem.CastWStringView 7
        (PythonSystem.MakeObjectWString guest0 [104, 0, 105]).2 o).1.size = 3 ∧
      (PythonSystem.CastWStringView 7
        (PythonSystem.MakeObjectWString guest0 [104, 0, 105]).2 o).1.elems
          = some [104, 0, 105]) ∧
    (∃ o, (PythonSystem.MakeObjectWString guest0 []).1.get = some o ∧
      (PythonSystem.CastWStringView 7
        (PythonSystem.MakeObjectWString guest0 []).2 o).1.size = 0 ∧
      (PythonSystem.CastWStringView 7
        (PythonSystem.MakeObjectWString guest0 []).2 o).1.elems = some []) :=
  ⟨C7_wstring_round_trip guest0 [104, 0, 105] 7 (by decide) (by decide),
   C7_wstring_round_trip guest0 [] 7 (by decide) (by decide)⟩

/-- C8: for every byte range `b` (the empty range included), `MakeObject(b)`
returns a non-empty handle and `Cast<std::span<const std::byte>>` applied to
its object returns a range of the same length as `b` with the same bytes in
the same positions. -/
theorem C8_bytes_round_trip (g : Guest) (b : List byte) (hlen : b.length ≤ PY_SSIZE_T_MAX) :
    ∃ o, (PythonSystem.MakeObjectBytes g b).1.get = some o ∧
      (PythonSystem.CastBytes (PythonSystem.MakeObjectBytes g b).2 o).1.size = b.length ∧
      (PythonSystem.CastBytes (PythonSystem.MakeObjectBytes g b).2 o).1.elems = some b := by
  have hmake : PythonSystem.MakeObjectBytes g b =
      (MakePyObjectPtr (some (g.alloc (.bytes b)).1), (g.alloc (.bytes b)).2) := rfl
  have hval := Guest.alloc_value g (.bytes b)
  refine ⟨(g.alloc (.bytes b)).1, by rw [hmake]; rfl, ?_, ?_⟩
  · rw [hmake]
    simp only [PythonSystem.CastBytes, PyBytes_Size, PyBytes_AsString, hval]
    exact to_size_t_of_length b.length hlen
  · rw [hmake]
    simp only [PythonSystem.CastBytes, PyBytes_Size, PyBytes_AsString, hval]
    rw [to_size_t_of_length b.length hlen]
    exact View.elems_terminated b 0

/-- Witness for C8: a range of three bytes, and the empty range. -/
theorem C8_bytes_round_trip_witness :
    (∃ o, (PythonSystem.MakeObjectBytes guest0 [255, 0, 7]).1.get = some o ∧
      (PythonSystem.CastBytes (PythonSystem.MakeObjectBytes guest0 [255, 0, 7]).2 o).1.size
        = 3 ∧
      (PythonSystem.CastBytes (PythonSystem.MakeObjectBytes guest0 [255, 0, 7]).2 o).1.elems
        = some [255, 0, 7]) ∧
    (∃ o, (PythonSystem.MakeObjectBytes guest0 []).1.get = some o ∧
      (PythonSystem.CastBytes (PythonSystem.MakeObjectBytes guest0 []).2 o).1.size = 0 ∧
      (PythonSystem.CastBytes (PythonSystem.MakeObjectBytes guest0 []).2 o).1.elems
        = some []) :=
  ⟨C8_bytes_round_trip guest0 [255, 0, 7] (by decide),
   C8_bytes_round_trip guest0 [] (by decide)⟩

/-! ## Unchecked failures -/

/-- C9 fails on the code: when every earlier step succeeds and the import of
`PIL` fails, `Test` dereferences the empty handle `pil_module`. -/
theorem C9_test_dereferences_empty_handle :
    PythonSystem.Test envNoPIL guest0 = .error (.emptyHandle "pil_module") := by
  rfl

/-- C10 fails on the code: on a guest integer, which is neither a guest string
nor a guest byte string, `Cast<std::span<const std::byte>>` returns a view with
a null pointer and length `SIZE_MAX` (the size -1 converted to `size_t`), and
`Cast<std::wstring_view>` returns a view with a null pointer whose length is
what the local `size` held before the call (here 7). -/
theorem C10_cast_failure_view_not_empty :
    (PythonSystem.CastBytes (PythonSystem.MakeObjectLong guest0 42).2 0).1 =
      { data := none, size := SIZE_MAX } ∧
    (PythonSystem.CastWStringView 7 (PythonSystem.MakeObjectLong guest0 42).2 0).1 =
      { data := none, size := 7 } := by
  decide

end AIHoloImager
